import Mathlib

/-!
Shallow embedding of the geomusic repository:
`src/js/audio.js` (class AudioSynthesizer), `src/unnamed/part_000`
(interaction.js, class InteractionController) and the small slice of
`src/js/scene.js` (class Scene3D) that the interaction layer calls.

Numbers are modelled in an arbitrary linear ordered field (instantiated at
ℚ for executable checks and at ℝ where `Math.pow` with a real exponent is
involved).  Web Audio node objects are modelled by their stored parameter
values: a `linearRampToValueAtTime(v, _)` call is modelled as setting the
node's value to its ramp target `v`.  The DOM/status writes performed by
the handlers carry no state read back by the core and are omitted.
-/

namespace GeoMusic

/-- The oscillator types accepted by `setWaveform` (audio.js line 188,
keyboard map in interaction.js lines 175-183). -/
inductive Waveform : Type where
  | sine
  | square
  | sawtooth
  | triangle
deriving DecidableEq

/-- The nodes of the audio graph allocated by `init` (audio.js lines 22-95),
plus the context destination. -/
inductive NodeRef : Type where
  | osc
  | gain
  | filterNode
  | delayNode
  | delayFeedback
  | delayMix
  | reverb
  | reverbMixNode
  | dryGain
  | finalMix
  | analyser
  | masterGain
  | destination
deriving DecidableEq

/-- The geometry variants of `Scene3D.createGeometry` (scene.js lines 59-81). -/
inductive Shape : Type where
  | icosahedron
  | torus
  | octahedron
  | dodecahedron
deriving DecidableEq

/-- The host math primitives the handlers call (`Math.pow`, `Math.PI`),
passed explicitly so that the step functions stay polymorphic in the number
type; the real-number instance is `realMath` below. -/
structure JsMath (α : Type) where
  pow : α → α → α
  pi : α

/-- State of `class AudioSynthesizer` (audio.js): the constructor fields
(lines 4-16) plus the graph-node values created by `init` (lines 22-98) and
allocation counters used to express "exactly one context / oscillator /
graph was ever created". -/
structure AudioState (α : Type) where
  isPlaying : Bool
  initialized : Bool
  baseFrequency : α
  currentFrequency : α
  filterFrequency : α
  filterQ : α
  reverbMix : α
  delayTime : α
  waveform : Waveform
  oscType : Waveform
  oscFreqValue : α
  oscStarted : Bool
  gainValue : α
  filterFreqNode : α
  filterQNode : α
  delayTimeNode : α
  delayFeedbackGain : α
  delayMixGain : α
  reverbMixGainNode : α
  dryGainNode : α
  masterGainValue : α
  connections : List (NodeRef × NodeRef)
  contextsCreated : Nat
  liveOscillators : Nat
  nodesCreated : Nat
deriving DecidableEq

variable {α : Type} [LinearOrderedField α]

/-- The `AudioSynthesizer` constructor (audio.js lines 4-16): parameter
defaults, nothing initialized, no context, no graph.  Graph-node fields are
given inert zero values; they are meaningless until `initialized` is set. -/
def initialAudio (α : Type) [LinearOrderedField α] : AudioState α where
  isPlaying := false
  initialized := false
  baseFrequency := 440
  currentFrequency := 440
  filterFrequency := 1000
  filterQ := 5
  reverbMix := 3/10
  delayTime := 1/5
  waveform := Waveform.sine
  oscType := Waveform.sine
  oscFreqValue := 0
  oscStarted := false
  gainValue := 0
  filterFreqNode := 0
  filterQNode := 0
  delayTimeNode := 0
  delayFeedbackGain := 0
  delayMixGain := 0
  reverbMixGainNode := 0
  dryGainNode := 0
  masterGainValue := 0
  connections := []
  contextsCreated := 0
  liveOscillators := 0
  nodesCreated := 0

/-- The edges wired by `init` (audio.js lines 68-95), in connection order. -/
def initConnections : List (NodeRef × NodeRef) :=
  [(NodeRef.osc, NodeRef.gain),
   (NodeRef.gain, NodeRef.filterNode),
   (NodeRef.filterNode, NodeRef.delayNode),
   (NodeRef.delayNode, NodeRef.delayFeedback),
   (NodeRef.delayFeedback, NodeRef.delayNode),
   (NodeRef.delayNode, NodeRef.delayMix),
   (NodeRef.filterNode, NodeRef.dryGain),
   (NodeRef.delayMix, NodeRef.dryGain),
   (NodeRef.dryGain, NodeRef.reverb),
   (NodeRef.reverb, NodeRef.reverbMixNode),
   (NodeRef.dryGain, NodeRef.finalMix),
   (NodeRef.reverbMixNode, NodeRef.finalMix),
   (NodeRef.finalMix, NodeRef.analyser),
   (NodeRef.analyser, NodeRef.masterGain),
   (NodeRef.masterGain, NodeRef.destination)]

/-- `AudioSynthesizer.init` (audio.js lines 18-101): no-op when already
initialized, otherwise allocates the context and the eleven non-oscillator
nodes, creates the oscillator at the stored waveform and frequency, sets
every node value from the stored parameters (gain envelope at 0), wires
`initConnections` and starts the oscillator. -/
def init (s : AudioState α) : AudioState α :=
  if s.initialized then s
  else
    { s with
      initialized := true
      oscType := s.waveform
      oscFreqValue := s.currentFrequency
      oscStarted := true
      gainValue := 0
      filterFreqNode := s.filterFrequency
      filterQNode := s.filterQ
      delayTimeNode := s.delayTime
      delayFeedbackGain := 2/5
      delayMixGain := 3/10
      reverbMixGainNode := s.reverbMix
      dryGainNode := 1 - s.reverbMix
      masterGainValue := 3/10
      connections := initConnections
      contextsCreated := s.contextsCreated + 1
      liveOscillators := s.liveOscillators + 1
      nodesCreated := s.nodesCreated + 11 }

/-- `start` (audio.js lines 118-126): guarded on `initialized`; ramps the
gain envelope to 0.5 and records the playing flag. -/
def start (s : AudioState α) : AudioState α :=
  if ¬s.initialized then s
  else { s with isPlaying := true, gainValue := 1/2 }

/-- `stop` (audio.js lines 128-136): guarded on `initialized`; ramps the
gain envelope to 0 and clears the playing flag. -/
def stop (s : AudioState α) : AudioState α :=
  if ¬s.initialized then s
  else { s with isPlaying := false, gainValue := 0 }

/-- `setFrequency` (audio.js lines 138-146): guarded on `initialized`;
clamps to [50, 2000] with `Math.max(50, Math.min(2000, freq))`, stores the
result and ramps the oscillator frequency to it. -/
def setFrequency (freq : α) (s : AudioState α) : AudioState α :=
  if ¬s.initialized then s
  else
    { s with
      currentFrequency := max 50 (min 2000 freq)
      oscFreqValue := max 50 (min 2000 freq) }

/-- `setFilterFrequency` (audio.js lines 148-156): clamps to [200, 5000]. -/
def setFilterFrequency (freq : α) (s : AudioState α) : AudioState α :=
  if ¬s.initialized then s
  else
    { s with
      filterFrequency := max 200 (min 5000 freq)
      filterFreqNode := max 200 (min 5000 freq) }

/-- `setFilterQ` (audio.js lines 158-166): clamps to [1, 20]. -/
def setFilterQ (q : α) (s : AudioState α) : AudioState α :=
  if ¬s.initialized then s
  else
    { s with
      filterQ := max 1 (min 20 q)
      filterQNode := max 1 (min 20 q) }

/-- `setReverbMix` (audio.js lines 168-176): clamps to [0, 1]; only the
reverb-wet gain node is ramped (the dry gain keeps its initial value). -/
def setReverbMix (mix : α) (s : AudioState α) : AudioState α :=
  if ¬s.initialized then s
  else
    { s with
      reverbMix := max 0 (min 1 mix)
      reverbMixGainNode := max 0 (min 1 mix) }

/-- `setDelayTime` (audio.js lines 178-186): clamps to [0, 0.5]. -/
def setDelayTime (time : α) (s : AudioState α) : AudioState α :=
  if ¬s.initialized then s
  else
    { s with
      delayTime := max 0 (min (1/2) time)
      delayTimeNode := max 0 (min (1/2) time) }

/-- `setWaveform` (audio.js lines 188-202): always stores the preference;
when initialized, disconnects and stops the running oscillator (removing
its outgoing edges, one live oscillator gone) and creates, connects to the
gain node and starts a replacement of the new kind at the stored current
frequency (one live oscillator gained). -/
def setWaveform (t : Waveform) (s : AudioState α) : AudioState α :=
  if ¬s.initialized then { s with waveform := t }
  else
    { s with
      waveform := t
      oscType := t
      oscFreqValue := s.currentFrequency
      oscStarted := true
      connections :=
        (s.connections.filter fun e => ¬e.1 = NodeRef.osc) ++
          [(NodeRef.osc, NodeRef.gain)] }

/-- `getAudioLevel` (audio.js lines 204-215): 0 when not initialized;
otherwise the mean of the analyser's byte-frequency bins (`data` models the
`Uint8Array` the analyser fills) divided by 255. -/
def getAudioLevel (s : AudioState α) (data : List (Fin 256)) : α :=
  if ¬s.initialized then 0
  else (((data.map Fin.val).sum : α) / (data.length : α)) / 255

/-- `setFrequencyNormalized` (audio.js lines 217-224): maps a 0-1 value
exponentially onto 110 Hz - 1760 Hz through the host `Math.pow`, then calls
`setFrequency`. -/
def setFrequencyNormalized (m : JsMath α) (value : α) (s : AudioState α) :
    AudioState α :=
  let minFreq : α := 110
  let maxFreq : α := 1760
  let freq := minFreq * m.pow (maxFreq / minFreq) value
  setFrequency freq s

/-- The slice of `class Scene3D` (scene.js) that the interaction layer
touches: constructor defaults (lines 6-12), the current shape selected by
`createGeometry`, and the setter targets. -/
structure SceneState (α : Type) where
  currentScale : α
  targetRotationX : α
  targetRotationY : α
  posX : α
  posY : α
  shape : Shape
deriving DecidableEq

/-- `Scene3D` constructor state (scene.js lines 4-13): scale 1, rotation 0,
mesh at the origin, initial geometry an icosahedron. -/
def initialScene (α : Type) [LinearOrderedField α] : SceneState α where
  currentScale := 1
  targetRotationX := 0
  targetRotationY := 0
  posX := 0
  posY := 0
  shape := Shape.icosahedron

/-- `Scene3D.setRotation` (scene.js lines 165-168). -/
def setRotation (x y : α) (sc : SceneState α) : SceneState α :=
  { sc with targetRotationX := x, targetRotationY := y }

/-- `Scene3D.setScale` (scene.js lines 170-172): clamps to [0.5, 3]. -/
def setScale (scale : α) (sc : SceneState α) : SceneState α :=
  { sc with currentScale := max (1/2) (min 3 scale) }

/-- `Scene3D.setPosition` (scene.js lines 174-179); the mesh always exists
after the constructor ran, so the `if (this.mesh)` guard always passes. -/
def setPosition (x y : α) (sc : SceneState α) : SceneState α :=
  { sc with posX := x, posY := y }

/-- `Scene3D.createGeometry` (scene.js lines 59-111): replaces the mesh with
the selected geometry (the keyboard handler only passes the four listed
names, so the `default` branch coincides with `icosahedron`). -/
def createGeometry (t : Shape) (sc : SceneState α) : SceneState α :=
  { sc with shape := t }

/-- State of `class InteractionController` (interaction.js lines 4-18). -/
structure InteractionState (α : Type) where
  mouseX : α
  mouseY : α
  isDragging : Bool
  dragStartX : α
  dragStartY : α
  shapeOffsetX : α
  shapeOffsetY : α
deriving DecidableEq

/-- `InteractionController` constructor fields (interaction.js lines 9-15). -/
def initialInteraction (α : Type) [LinearOrderedField α] : InteractionState α where
  mouseX := 0
  mouseY := 0
  isDragging := false
  dragStartX := 0
  dragStartY := 0
  shapeOffsetX := 0
  shapeOffsetY := 0

/-- The canvas bounding rectangle (`canvas.getBoundingClientRect()`). -/
structure Rect (α : Type) where
  left : α
  top : α
  width : α
  height : α

/-- The whole interactive system: controller state, scene slice, audio
engine (interaction.js constructor, lines 4-7). -/
structure Sys (α : Type) where
  inter : InteractionState α
  scene : SceneState α
  audio : AudioState α
deriving DecidableEq

/-- The application's state right after `new App()` wired the three
modules together (main.js lines 21-23). -/
def initialSys (α : Type) [LinearOrderedField α] : Sys α where
  inter := initialInteraction α
  scene := initialScene α
  audio := initialAudio α

/-- Keys the `keydown` handler distinguishes (interaction.js lines 162-190). -/
inductive Key : Type where
  | k1
  | k2
  | k3
  | k4
  | kq
  | kw
  | ke
  | kr
  | space
  | other
deriving DecidableEq

/-- `onMouseMove` (interaction.js lines 43-78): normalizes the client
coordinates by the canvas rectangle, updates the scene rotation, maps x to
the filter frequency and y to the filter resonance, and while a drag is
active also maps the drag vector to the shape offset, the delay time and
the reverb mix. -/
def onMouseMove (m : JsMath α) (rect : Rect α) (clientX clientY : α)
    (s : Sys α) : Sys α :=
  let mX := (clientX - rect.left) / rect.width
  let mY := (clientY - rect.top) / rect.height
  let inter1 := { s.inter with mouseX := mX, mouseY := mY }
  let rotationX := (mY - 1/2) * m.pi * 2
  let rotationY := (mX - 1/2) * m.pi * 2
  let scene1 := setRotation rotationX rotationY s.scene
  let filterFreq := 200 + mX * 4800
  let fQ := 1 + mY * 19
  let audio1 := setFilterQ fQ (setFilterFrequency filterFreq s.audio)
  if inter1.isDragging then
    let dragX := (clientX - inter1.dragStartX) / rect.width
    let dragY := (clientY - inter1.dragStartY) / rect.height
    let offX := dragX * 4
    let offY := -dragY * 4
    let inter2 := { inter1 with shapeOffsetX := offX, shapeOffsetY := offY }
    let scene2 := setPosition offX offY scene1
    let dTime := |dragX| * (1/2)
    let rMix := |dragY|
    let audio2 := setReverbMix rMix (setDelayTime dTime audio1)
    { inter := inter2, scene := scene2, audio := audio2 }
  else
    { inter := inter1, scene := scene1, audio := audio1 }

/-- `onWheel` (interaction.js lines 80-101): steps the scene scale by ±0.1,
clamps to [0.5, 3], and drives the oscillator pitch through
`setFrequencyNormalized ((scale - 0.5) / 2.5)`. -/
def onWheel (m : JsMath α) (deltaY : α) (s : Sys α) : Sys α :=
  let scale0 := s.scene.currentScale
  let delta := if 0 < deltaY then -(1/10 : α) else (1/10 : α)
  let scale1 := max (1/2) (min 3 (scale0 + delta))
  let scene1 := setScale scale1 s.scene
  let normalizedScale := (scale1 - 1/2) / (5/2)
  let audio1 := setFrequencyNormalized m normalizedScale s.audio
  { s with scene := scene1, audio := audio1 }

/-- `onClick` (interaction.js lines 103-118): awaits `init` on first
activation, then toggles playback. -/
def onClick (s : Sys α) : Sys α :=
  let audio1 := if ¬s.audio.initialized then init s.audio else s.audio
  let audio2 := if audio1.isPlaying then stop audio1 else start audio1
  { s with audio := audio2 }

/-- `onMouseDown` (interaction.js lines 120-125). -/
def onMouseDown (clientX clientY : α) (s : Sys α) : Sys α :=
  { s with
    inter :=
      { s.inter with
        isDragging := true, dragStartX := clientX, dragStartY := clientY } }

/-- `onMouseUp` (interaction.js lines 127-140): unconditionally ends the
drag, recenters the shape and resets the delay and reverb defaults. -/
def onMouseUp (s : Sys α) : Sys α :=
  let inter1 :=
    { s.inter with isDragging := false, shapeOffsetX := 0, shapeOffsetY := 0 }
  let scene1 := setPosition 0 0 s.scene
  let audio1 := setReverbMix (3/10) (setDelayTime (1/5) s.audio)
  { inter := inter1, scene := scene1, audio := audio1 }

/-- `onTouchStart` (interaction.js lines 142-148): first touch aliases a
mouse-down. -/
def onTouchStart (touches : List (α × α)) (s : Sys α) : Sys α :=
  match touches with
  | [] => s
  | t :: _ => onMouseDown t.1 t.2 s

/-- `onTouchMove` (interaction.js lines 150-156): first touch aliases a
mouse-move. -/
def onTouchMove (m : JsMath α) (rect : Rect α) (touches : List (α × α))
    (s : Sys α) : Sys α :=
  match touches with
  | [] => s
  | t :: _ => onMouseMove m rect t.1 t.2 s

/-- `onTouchEnd` (interaction.js lines 158-160): aliases a mouse-up. -/
def onTouchEnd (s : Sys α) : Sys α :=
  onMouseUp s

/-- `changeShape` (interaction.js lines 192-202): forwards to
`createGeometry` (the button-class DOM writes are presentation only). -/
def changeShape (t : Shape) (s : Sys α) : Sys α :=
  { s with scene := createGeometry t s.scene }

/-- `changeWaveform` (interaction.js lines 204-214): forwards to
`setWaveform`. -/
def changeWaveform (w : Waveform) (s : Sys α) : Sys α :=
  { s with audio := setWaveform w s.audio }

/-- `onKeyDown` (interaction.js lines 162-190): digit keys select shapes,
q/w/e/r select waveforms, space toggles via `onClick`. -/
def onKeyDown (k : Key) (s : Sys α) : Sys α :=
  let s1 :=
    match k with
    | Key.k1 => changeShape Shape.icosahedron s
    | Key.k2 => changeShape Shape.torus s
    | Key.k3 => changeShape Shape.octahedron s
    | Key.k4 => changeShape Shape.dodecahedron s
    | _ => s
  let s2 :=
    match k with
    | Key.kq => changeWaveform Waveform.sine s1
    | Key.kw => changeWaveform Waveform.square s1
    | Key.ke => changeWaveform Waveform.sawtooth s1
    | Key.kr => changeWaveform Waveform.triangle s1
    | _ => s1
  match k with
  | Key.space => onClick s2
  | _ => s2

/-- The canvas/document events the controller listens for (interaction.js
lines 20-41), each carrying the payload its handler reads. -/
inductive UIEvent (α : Type) where
  | mouseMove (clientX clientY : α)
  | wheel (deltaY : α)
  | click
  | mouseDown (clientX clientY : α)
  | mouseUp
  | touchStart (touches : List (α × α))
  | touchMove (touches : List (α × α))
  | touchEnd
  | keyDown (k : Key)

/-- One input event dispatched to its handler. -/
def step (m : JsMath α) (rect : Rect α) : UIEvent α → Sys α → Sys α
  | UIEvent.mouseMove cx cy => onMouseMove m rect cx cy
  | UIEvent.wheel d => onWheel m d
  | UIEvent.click => onClick
  | UIEvent.mouseDown cx cy => onMouseDown cx cy
  | UIEvent.mouseUp => onMouseUp
  | UIEvent.touchStart ts => onTouchStart ts
  | UIEvent.touchMove ts => onTouchMove m rect ts
  | UIEvent.touchEnd => onTouchEnd
  | UIEvent.keyDown k => onKeyDown k

/-- The public mutating operations of `AudioSynthesizer`, for quantifying
over "every operation" at once. -/
inductive AudioOp (α : Type) where
  | init
  | start
  | stop
  | setFrequency (freq : α)
  | setFilterFrequency (freq : α)
  | setFilterQ (q : α)
  | setReverbMix (mix : α)
  | setDelayTime (time : α)
  | setWaveform (t : Waveform)
  | setFrequencyNormalized (value : α)

/-- Dispatch an `AudioOp` to the method it names. -/
def applyOp (m : JsMath α) : AudioOp α → AudioState α → AudioState α
  | AudioOp.init => init
  | AudioOp.start => start
  | AudioOp.stop => stop
  | AudioOp.setFrequency f => setFrequency f
  | AudioOp.setFilterFrequency f => setFilterFrequency f
  | AudioOp.setFilterQ q => setFilterQ q
  | AudioOp.setReverbMix x => setReverbMix x
  | AudioOp.setDelayTime t => setDelayTime t
  | AudioOp.setWaveform w => setWaveform w
  | AudioOp.setFrequencyNormalized v => setFrequencyNormalized m v

/-- The real-number instance of the host math primitives: `Math.pow` is
real exponentiation, `Math.PI` is π. -/
noncomputable def realMath : JsMath ℝ where
  pow := fun b v => b ^ v
  pi := Real.pi

/-- Every stored audio parameter sits in its declared range: frequency in
[50, 2000], filterFrequency in [200, 5000], filterQ in [1, 20], reverbMix
in [0, 1], delayTime in [0, 0.5]. -/
def AudioInRange (s : AudioState α) : Prop :=
  (50 ≤ s.currentFrequency ∧ s.currentFrequency ≤ 2000) ∧
  (200 ≤ s.filterFrequency ∧ s.filterFrequency ≤ 5000) ∧
  (1 ≤ s.filterQ ∧ s.filterQ ≤ 20) ∧
  (0 ≤ s.reverbMix ∧ s.reverbMix ≤ 1) ∧
  (0 ≤ s.delayTime ∧ s.delayTime ≤ 1/2)

/-- The system-wide invariant: audio parameters in range and the scene
scale in [0.5, 3]. -/
def SysInvariant (s : Sys α) : Prop :=
  AudioInRange s.audio ∧
  1/2 ≤ s.scene.currentScale ∧ s.scene.currentScale ≤ 3

instance (s : AudioState α) : Decidable (AudioInRange s) := by
  unfold AudioInRange; infer_instance

instance (s : Sys α) : Decidable (SysInvariant s) := by
  unfold SysInvariant; infer_instance

theorem clamp_lower (lo hi x : α) : lo ≤ max lo (min hi x) :=
  le_max_left _ _

theorem clamp_upper (lo hi x : α) (h : lo ≤ hi) : max lo (min hi x) ≤ hi :=
  max_le h (min_le_left _ _)

theorem clamp_eq_self (lo hi x : α) (h1 : lo ≤ x) (h2 : x ≤ hi) :
    max lo (min hi x) = x := by
  rw [min_eq_right h2, max_eq_right h1]

theorem audioInRange_init (s : AudioState α) (h : AudioInRange s) :
    AudioInRange (init s) := by
  unfold init; split_ifs <;> exact h

theorem audioInRange_start (s : AudioState α) (h : AudioInRange s) :
    AudioInRange (start s) := by
  unfold start; split_ifs <;> exact h

theorem audioInRange_stop (s : AudioState α) (h : AudioInRange s) :
    AudioInRange (stop s) := by
  unfold stop; split_ifs <;> exact h

theorem audioInRange_setFrequency (f : α) (s : AudioState α)
    (h : AudioInRange s) : AudioInRange (setFrequency f s) := by
  unfold setFrequency; split_ifs with hi
  · exact ⟨⟨clamp_lower _ _ _, clamp_upper _ _ _ (by norm_num)⟩, h.2⟩
  · exact h

theorem audioInRange_setFilterFrequency (f : α) (s : AudioState α)
    (h : AudioInRange s) : AudioInRange (setFilterFrequency f s) := by
  unfold setFilterFrequency; split_ifs with hi
  · exact ⟨h.1, ⟨clamp_lower _ _ _, clamp_upper _ _ _ (by norm_num)⟩,
      h.2.2⟩
  · exact h

theorem audioInRange_setFilterQ (q : α) (s : AudioState α)
    (h : AudioInRange s) : AudioInRange (setFilterQ q s) := by
  unfold setFilterQ; split_ifs with hi
  · exact ⟨h.1, h.2.1, ⟨clamp_lower _ _ _, clamp_upper _ _ _ (by norm_num)⟩,
      h.2.2.2⟩
  · exact h

theorem audioInRange_setReverbMix (x : α) (s : AudioState α)
    (h : AudioInRange s) : AudioInRange (setReverbMix x s) := by
  unfold setReverbMix; split_ifs with hi
  · exact ⟨h.1, h.2.1, h.2.2.1,
      ⟨clamp_lower _ _ _, clamp_upper _ _ _ (by norm_num)⟩, h.2.2.2.2⟩
  · exact h

theorem audioInRange_setDelayTime (t : α) (s : AudioState α)
    (h : AudioInRange s) : AudioInRange (setDelayTime t s) := by
  unfold setDelayTime; split_ifs with hi
  · exact ⟨h.1, h.2.1, h.2.2.1, h.2.2.2.1,
      ⟨clamp_lower _ _ _, clamp_upper _ _ _ (by norm_num)⟩⟩
  · exact h

theorem audioInRange_setWaveform (w : Waveform) (s : AudioState α)
    (h : AudioInRange s) : AudioInRange (setWaveform w s) := by
  unfold setWaveform; split_ifs <;> exact h

theorem audioInRange_setFrequencyNormalized (m : JsMath α) (v : α)
    (s : AudioState α) (h : AudioInRange s) :
    AudioInRange (setFrequencyNormalized m v s) :=
  audioInRange_setFrequency _ _ h

theorem audioInRange_applyOp (m : JsMath α) (op : AudioOp α)
    (s : AudioState α) (h : AudioInRange s) :
    AudioInRange (applyOp m op s) := by
  cases op with
  | init => exact audioInRange_init _ h
  | start => exact audioInRange_start _ h
  | stop => exact audioInRange_stop _ h
  | setFrequency f => exact audioInRange_setFrequency _ _ h
  | setFilterFrequency f => exact audioInRange_setFilterFrequency _ _ h
  | setFilterQ q => exact audioInRange_setFilterQ _ _ h
  | setReverbMix x => exact audioInRange_setReverbMix _ _ h
  | setDelayTime t => exact audioInRange_setDelayTime _ _ h
  | setWaveform w => exact audioInRange_setWaveform _ _ h
  | setFrequencyNormalized v => exact audioInRange_setFrequencyNormalized _ _ _ h

theorem sysInvariant_onMouseMove (m : JsMath α) (rect : Rect α)
    (cx cy : α) (s : Sys α) (h : SysInvariant s) :
    SysInvariant (onMouseMove m rect cx cy s) := by
  unfold onMouseMove
  dsimp only
  split_ifs
  · exact ⟨audioInRange_setReverbMix _ _ (audioInRange_setDelayTime _ _
      (audioInRange_setFilterQ _ _ (audioInRange_setFilterFrequency _ _ h.1))),
      h.2⟩
  · exact ⟨audioInRange_setFilterQ _ _ (audioInRange_setFilterFrequency _ _ h.1),
      h.2⟩

theorem sysInvariant_onWheel (m : JsMath α) (d : α) (s : Sys α)
    (h : SysInvariant s) : SysInvariant (onWheel m d s) := by
  refine ⟨audioInRange_setFrequencyNormalized _ _ _ h.1, ?_, ?_⟩
  · exact clamp_lower _ _ _
  · exact clamp_upper _ _ _ (by norm_num)

theorem sysInvariant_onClick (s : Sys α) (h : SysInvariant s) :
    SysInvariant (onClick s) := by
  unfold onClick
  dsimp only
  split_ifs
  · exact ⟨audioInRange_stop _ h.1, h.2⟩
  · exact ⟨audioInRange_start _ h.1, h.2⟩
  · exact ⟨audioInRange_stop _ (audioInRange_init _ h.1), h.2⟩
  · exact ⟨audioInRange_start _ (audioInRange_init _ h.1), h.2⟩

theorem sysInvariant_onMouseUp (s : Sys α) (h : SysInvariant s) :
    SysInvariant (onMouseUp s) :=
  ⟨audioInRange_setReverbMix _ _ (audioInRange_setDelayTime _ _ h.1), h.2⟩

theorem sysInvariant_step (m : JsMath α) (rect : Rect α) (e : UIEvent α)
    (s : Sys α) (h : SysInvariant s) : SysInvariant (step m rect e s) := by
  cases e with
  | mouseMove cx cy => exact sysInvariant_onMouseMove m rect cx cy s h
  | wheel d => exact sysInvariant_onWheel m d s h
  | click => exact sysInvariant_onClick s h
  | mouseDown cx cy => exact h
  | mouseUp => exact sysInvariant_onMouseUp s h
  | touchStart ts =>
      cases ts with
      | nil => exact h
      | cons t ts => exact h
  | touchMove ts =>
      cases ts with
      | nil => exact h
      | cons t ts => exact sysInvariant_onMouseMove m rect t.1 t.2 s h
  | touchEnd => exact sysInvariant_onMouseUp s h
  | keyDown k =>
      cases k with
      | k1 => exact h
      | k2 => exact h
      | k3 => exact h
      | k4 => exact h
      | kq => exact ⟨audioInRange_setWaveform _ _ h.1, h.2⟩
      | kw => exact ⟨audioInRange_setWaveform _ _ h.1, h.2⟩
      | ke => exact ⟨audioInRange_setWaveform _ _ h.1, h.2⟩
      | kr => exact ⟨audioInRange_setWaveform _ _ h.1, h.2⟩
      | space => exact sysInvariant_onClick s h
      | other => exact h

/-- One click/space activation (`onClick`, interaction.js lines 103-118)
split at its only suspension point, the `await this.audio.init()`: the
synchronous prefix (the `initialized` check together with the whole body of
`init`, which contains no internal await and therefore runs to completion
once entered) and the post-await playback toggle.  JavaScript's
run-to-completion scheduling can interleave two activations only at this
boundary. -/
inductive ClickPhase : Type where
  | checkInit
  | toggle
deriving DecidableEq

/-- Execute one atomic phase of an activation. -/
def clickPhase : ClickPhase → AudioState α → AudioState α
  | ClickPhase.checkInit, s => if ¬s.initialized then init s else s
  | ClickPhase.toggle, s => if s.isPlaying then stop s else start s

/-- Run a schedule of phases left to right. -/
def runPhases (t : List ClickPhase) (s : AudioState α) : AudioState α :=
  t.foldl (fun st p => clickPhase p st) s

/-- All order-preserving interleavings of two task traces. -/
def merges {β : Type} : List β → List β → List (List β)
  | [], ys => [ys]
  | x :: xs, [] => [x :: xs]
  | x :: xs, y :: ys =>
      ((merges xs (y :: ys)).map fun t => x :: t) ++
        ((merges (x :: xs) ys).map fun t => y :: t)
termination_by a b => a.length + b.length

/-- A rational-valued stand-in for the host math record, used to
instantiate the polymorphic theorems at concrete executable states. -/
def qMath : JsMath ℚ where
  pow := fun b v => b * v
  pi := 314/100

/-- A unit canvas rectangle for concrete instantiations. -/
def unitRect : Rect ℚ where
  left := 0
  top := 0
  width := 1
  height := 1

/-- The system right after the first activation initialized the audio
engine. -/
def readySys : Sys ℚ :=
  { initialSys ℚ with audio := init (initialAudio ℚ) }

@[simp]
theorem setFrequency_initialized (f : α) (s : AudioState α) :
    (setFrequency f s).initialized = s.initialized := by
  unfold setFrequency; split_ifs <;> rfl

@[simp]
theorem setFilterFrequency_initialized (f : α) (s : AudioState α) :
    (setFilterFrequency f s).initialized = s.initialized := by
  unfold setFilterFrequency; split_ifs <;> rfl

@[simp]
theorem setFilterQ_initialized (q : α) (s : AudioState α) :
    (setFilterQ q s).initialized = s.initialized := by
  unfold setFilterQ; split_ifs <;> rfl

@[simp]
theorem setReverbMix_initialized (x : α) (s : AudioState α) :
    (setReverbMix x s).initialized = s.initialized := by
  unfold setReverbMix; split_ifs <;> rfl

@[simp]
theorem setDelayTime_initialized (t : α) (s : AudioState α) :
    (setDelayTime t s).initialized = s.initialized := by
  unfold setDelayTime; split_ifs <;> rfl

@[simp]
theorem setFrequency_currentFrequency (f : α) (s : AudioState α)
    (h : s.initialized = true) :
    (setFrequency f s).currentFrequency = max 50 (min 2000 f) := by
  unfold setFrequency; simp [h]

@[simp]
theorem setFilterFrequency_filterFrequency (f : α) (s : AudioState α)
    (h : s.initialized = true) :
    (setFilterFrequency f s).filterFrequency = max 200 (min 5000 f) := by
  unfold setFilterFrequency; simp [h]

@[simp]
theorem setFilterQ_filterQ (q : α) (s : AudioState α)
    (h : s.initialized = true) :
    (setFilterQ q s).filterQ = max 1 (min 20 q) := by
  unfold setFilterQ; simp [h]

@[simp]
theorem setReverbMix_reverbMix (x : α) (s : AudioState α)
    (h : s.initialized = true) :
    (setReverbMix x s).reverbMix = max 0 (min 1 x) := by
  unfold setReverbMix; simp [h]

@[simp]
theorem setDelayTime_delayTime (t : α) (s : AudioState α)
    (h : s.initialized = true) :
    (setDelayTime t s).delayTime = max 0 (min (1/2) t) := by
  unfold setDelayTime; simp [h]

@[simp]
theorem setFilterQ_filterFrequency (q : α) (s : AudioState α) :
    (setFilterQ q s).filterFrequency = s.filterFrequency := by
  unfold setFilterQ; split_ifs <;> rfl

@[simp]
theorem setDelayTime_filterFrequency (t : α) (s : AudioState α) :
    (setDelayTime t s).filterFrequency = s.filterFrequency := by
  unfold setDelayTime; split_ifs <;> rfl

@[simp]
theorem setDelayTime_filterQ (t : α) (s : AudioState α) :
    (setDelayTime t s).filterQ = s.filterQ := by
  unfold setDelayTime; split_ifs <;> rfl

@[simp]
theorem setDelayTime_reverbMix (t : α) (s : AudioState α) :
    (setDelayTime t s).reverbMix = s.reverbMix := by
  unfold setDelayTime; split_ifs <;> rfl

@[simp]
theorem setReverbMix_filterFrequency (x : α) (s : AudioState α) :
    (setReverbMix x s).filterFrequency = s.filterFrequency := by
  unfold setReverbMix; split_ifs <;> rfl

@[simp]
theorem setReverbMix_filterQ (x : α) (s : AudioState α) :
    (setReverbMix x s).filterQ = s.filterQ := by
  unfold setReverbMix; split_ifs <;> rfl

@[simp]
theorem setReverbMix_delayTime (x : α) (s : AudioState α) :
    (setReverbMix x s).delayTime = s.delayTime := by
  unfold setReverbMix; split_ifs <;> rfl

/-- C1: For every pointer-move event with normalized position (x, y) in
[0,1]^2, after initialization the mapper sets filterFrequency to exactly
200 + 4800*x (which lies in [200,5000]) and filterQ to exactly 1 + 19*y
(which lies in [1,20]). -/
theorem c1_pointer_filter_mapping (m : JsMath α) (rect : Rect α)
    (clientX clientY : α) (s : Sys α)
    (hx0 : 0 ≤ (clientX - rect.left) / rect.width)
    (hx1 : (clientX - rect.left) / rect.width ≤ 1)
    (hy0 : 0 ≤ (clientY - rect.top) / rect.height)
    (hy1 : (clientY - rect.top) / rect.height ≤ 1)
    (hinit : s.audio.initialized = true) :
    (step m rect (UIEvent.mouseMove clientX clientY) s).audio.filterFrequency
        = 200 + 4800 * ((clientX - rect.left) / rect.width) ∧
    200 ≤ (step m rect (UIEvent.mouseMove clientX clientY) s).audio.filterFrequency ∧
    (step m rect (UIEvent.mouseMove clientX clientY) s).audio.filterFrequency ≤ 5000 ∧
    (step m rect (UIEvent.mouseMove clientX clientY) s).audio.filterQ
        = 1 + 19 * ((clientY - rect.top) / rect.height) ∧
    1 ≤ (step m rect (UIEvent.mouseMove clientX clientY) s).audio.filterQ ∧
    (step m rect (UIEvent.mouseMove clientX clientY) s).audio.filterQ ≤ 20 := by
  have hff : (step m rect (UIEvent.mouseMove clientX clientY) s).audio.filterFrequency
      = 200 + (clientX - rect.left) / rect.width * 4800 := by
    simp only [step, onMouseMove]
    split_ifs <;>
      simp [hinit, clamp_eq_self _ _ _ (by nlinarith : (200:α) ≤ 200 + (clientX - rect.left) / rect.width * 4800) (by nlinarith : 200 + (clientX - rect.left) / rect.width * 4800 ≤ 5000)]
  have hfq : (step m rect (UIEvent.mouseMove clientX clientY) s).audio.filterQ
      = 1 + (clientY - rect.top) / rect.height * 19 := by
    simp only [step, onMouseMove]
    split_ifs <;>
      simp [hinit, clamp_eq_self _ _ _ (by nlinarith : (1:α) ≤ 1 + (clientY - rect.top) / rect.height * 19) (by nlinarith : 1 + (clientY - rect.top) / rect.height * 19 ≤ 20)]
  refine ⟨by rw [hff]; ring, ?_, ?_, by rw [hfq]; ring, ?_, ?_⟩
  · rw [hff]; nlinarith
  · rw [hff]; nlinarith
  · rw [hfq]; nlinarith
  · rw [hfq]; nlinarith

/-- Witness for C1 at the concrete normalized pointer position (1/2, 1/4)
on an initialized system. -/
theorem c1_pointer_filter_mapping_witness :
    (step qMath unitRect (UIEvent.mouseMove (1/2) (1/4)) readySys).audio.filterFrequency = 2600 ∧
    (step qMath unitRect (UIEvent.mouseMove (1/2) (1/4)) readySys).audio.filterQ = 23/4 := by
  have h := c1_pointer_filter_mapping qMath unitRect (1/2) (1/4) readySys
    (by norm_num [unitRect]) (by norm_num [unitRect])
    (by norm_num [unitRect]) (by norm_num [unitRect]) rfl
  norm_num [unitRect] at h
  exact ⟨h.1, h.2.2.2.1⟩

theorem onMouseUp_resets (s : Sys α) (hinit : s.audio.initialized = true) :
    (onMouseUp s).audio.delayTime = 1/5 ∧
    (onMouseUp s).audio.reverbMix = 3/10 ∧
    (onMouseUp s).scene.posX = 0 ∧
    (onMouseUp s).scene.posY = 0 ∧
    (onMouseUp s).inter.isDragging = false := by
  refine ⟨?_, ?_, rfl, rfl, rfl⟩
  · simp only [onMouseUp, setReverbMix_delayTime]
    rw [setDelayTime_delayTime _ _ hinit,
      clamp_eq_self _ _ _ (by norm_num) (by norm_num)]
  · simp only [onMouseUp]
    rw [setReverbMix_reverbMix _ _ (by simp [hinit]),
      clamp_eq_self _ _ _ (by norm_num) (by norm_num)]

/-- C4: Every drag-end event restores delayTime to exactly 0.2 and
reverbMix to exactly 0.3, regardless of the magnitude of the preceding
drag and of the parameter values set during the drag session (the state
`s` is arbitrary, so it covers whatever the drag wrote). -/
theorem c4_dragend_restores_defaults (m : JsMath α) (rect : Rect α)
    (s : Sys α) (hinit : s.audio.initialized = true) :
    (step m rect UIEvent.mouseUp s).audio.delayTime = 1/5 ∧
    (step m rect UIEvent.mouseUp s).audio.reverbMix = 3/10 := by
  have h := onMouseUp_resets s hinit
  exact ⟨h.1, h.2.1⟩

/-- Witness for C4: the release handler on a concrete initialized system
restores the defaults. -/
theorem c4_dragend_restores_defaults_witness :
    (step qMath unitRect UIEvent.mouseUp readySys).audio.delayTime = 1/5 ∧
    (step qMath unitRect UIEvent.mouseUp readySys).audio.reverbMix = 3/10 :=
  c4_dragend_restores_defaults qMath unitRect readySys rfl

/-- C10: Every mouse-up or touch-end event on the canvas performs the
drag-end reset (delayTime 0.2, reverbMix 0.3, shape position at the
origin) even when no drag movement occurred and independently of the
drag-active flag; in particular a plain click (mouse-down immediately
followed by mouse-up) also resets these effect parameters. -/
theorem c10_release_always_resets (m : JsMath α) (rect : Rect α)
    (cx cy : α) (s : Sys α) (hinit : s.audio.initialized = true) :
    ((step m rect UIEvent.mouseUp s).audio.delayTime = 1/5 ∧
     (step m rect UIEvent.mouseUp s).audio.reverbMix = 3/10 ∧
     (step m rect UIEvent.mouseUp s).scene.posX = 0 ∧
     (step m rect UIEvent.mouseUp s).scene.posY = 0 ∧
     (step m rect UIEvent.mouseUp s).inter.isDragging = false) ∧
    ((step m rect UIEvent.touchEnd s).audio.delayTime = 1/5 ∧
     (step m rect UIEvent.touchEnd s).audio.reverbMix = 3/10 ∧
     (step m rect UIEvent.touchEnd s).scene.posX = 0 ∧
     (step m rect UIEvent.touchEnd s).scene.posY = 0) ∧
    ((step m rect UIEvent.mouseUp
        (step m rect (UIEvent.mouseDown cx cy) s)).audio.delayTime = 1/5 ∧
     (step m rect UIEvent.mouseUp
        (step m rect (UIEvent.mouseDown cx cy) s)).audio.reverbMix = 3/10 ∧
     (step m rect UIEvent.mouseUp
        (step m rect (UIEvent.mouseDown cx cy) s)).scene.posX = 0 ∧
     (step m rect UIEvent.mouseUp
        (step m rect (UIEvent.mouseDown cx cy) s)).scene.posY = 0) := by
  refine ⟨onMouseUp_resets s hinit, ?_, ?_⟩
  · have h := onMouseUp_resets s hinit
    exact ⟨h.1, h.2.1, h.2.2.1, h.2.2.2.1⟩
  · have h := onMouseUp_resets (step m rect (UIEvent.mouseDown cx cy) s) hinit
    exact ⟨h.1, h.2.1, h.2.2.1, h.2.2.2.1⟩

/-- Witness for C10: a plain click on a concrete initialized system with
no drag movement still resets delay and reverb. -/
theorem c10_release_always_resets_witness :
    (step qMath unitRect UIEvent.mouseUp
        (step qMath unitRect (UIEvent.mouseDown 3 4) readySys)).audio.delayTime = 1/5 ∧
    (step qMath unitRect UIEvent.touchEnd readySys).audio.reverbMix = 3/10 := by
  have h := c10_release_always_resets qMath unitRect 3 4 readySys rfl
  exact ⟨h.2.2.1, h.2.1.2.1⟩

/-- C3: Starting from the initial state, every operation and input event
preserves the state invariant: each audio parameter satisfies
min ≤ current ≤ max (frequency in [50,2000], filterFrequency in
[200,5000], filterQ in [1,20], reverbMix in [0,1], delayTime in [0,0.5])
and the shape scale stays in [0.5,3]; in particular repeated wheel
increments never push the scale above 3 and repeated decrements never
below 0.5 (every `setScale` result is clamped into [0.5,3]). -/
theorem c3_state_invariant {α : Type} [LinearOrderedField α] :
    SysInvariant (initialSys α) ∧
    (∀ (m : JsMath α) (rect : Rect α) (e : UIEvent α) (s : Sys α),
        SysInvariant s → SysInvariant (step m rect e s)) ∧
    (∀ (m : JsMath α) (op : AudioOp α) (s : AudioState α),
        AudioInRange s → AudioInRange (applyOp m op s)) ∧
    (∀ (sc : SceneState α) (v : α),
        1/2 ≤ (setScale v sc).currentScale ∧ (setScale v sc).currentScale ≤ 3) := by
  refine ⟨?_, sysInvariant_step, audioInRange_applyOp, ?_⟩
  · norm_num [SysInvariant, AudioInRange, initialSys, initialAudio, initialScene]
  · intro sc v
    exact ⟨clamp_lower _ _ _, clamp_upper _ _ _ (by norm_num)⟩

/-- Witness for C3: one wheel event from the initial rational system keeps
the invariant. -/
theorem c3_state_invariant_witness :
    SysInvariant (step qMath unitRect (UIEvent.wheel 1) (initialSys ℚ)) :=
  (c3_state_invariant (α := ℚ)).2.1 qMath unitRect (UIEvent.wheel 1)
    (initialSys ℚ) (c3_state_invariant (α := ℚ)).1

/-- C6: init is idempotent: a second call returns immediately on the
`initialized` guard, so it changes nothing and allocates nothing — after
two calls from the constructor state exactly one context, one live
oscillator and eleven other nodes exist, and the state equals the state
after the first call. -/
theorem c6_init_idempotent {α : Type} [LinearOrderedField α] :
    (∀ s : AudioState α, s.initialized = true → init s = s) ∧
    (∀ s : AudioState α, (init s).initialized = true) ∧
    (∀ s : AudioState α, init (init s) = init s) ∧
    (init (init (initialAudio α))).contextsCreated = 1 ∧
    (init (init (initialAudio α))).liveOscillators = 1 ∧
    (init (init (initialAudio α))).nodesCreated = 11 := by
  have hid : ∀ s : AudioState α, s.initialized = true → init s = s := by
    intro s h; simp [init, h]
  have hin : ∀ s : AudioState α, (init s).initialized = true := by
    intro s; unfold init; split_ifs with h
    · exact h
    · rfl
  have hii : ∀ s : AudioState α, init (init s) = init s :=
    fun s => hid _ (hin s)
  refine ⟨hid, hin, hii, ?_, ?_, ?_⟩ <;> rw [hii] <;> simp [init, initialAudio]

/-- Witness for C6: the double call on the concrete constructor state
collapses to the single call. -/
theorem c6_init_idempotent_witness :
    init (init (initialAudio ℚ)) = init (initialAudio ℚ) :=
  (c6_init_idempotent (α := ℚ)).2.2.1 (initialAudio ℚ)

/-- C7: Every mutating audio operation called before init completes
returns normally (the model functions are total) and leaves the stored
state entirely unchanged; after initialization every setter clamps an
out-of-range argument into the parameter's declared range instead of
rejecting it. -/
theorem c7_uninitialized_noop_and_clamp {α : Type} [LinearOrderedField α] :
    (∀ (s : AudioState α) (x : α), s.initialized = false →
        start s = s ∧ stop s = s ∧ setFrequency x s = s ∧
        setFilterFrequency x s = s ∧ setFilterQ x s = s ∧
        setReverbMix x s = s ∧ setDelayTime x s = s) ∧
    (∀ (s : AudioState α) (x : α), s.initialized = true →
        ((setFrequency x s).currentFrequency = max 50 (min 2000 x) ∧
         50 ≤ (setFrequency x s).currentFrequency ∧
         (setFrequency x s).currentFrequency ≤ 2000) ∧
        ((setFilterFrequency x s).filterFrequency = max 200 (min 5000 x) ∧
         200 ≤ (setFilterFrequency x s).filterFrequency ∧
         (setFilterFrequency x s).filterFrequency ≤ 5000) ∧
        ((setFilterQ x s).filterQ = max 1 (min 20 x) ∧
         1 ≤ (setFilterQ x s).filterQ ∧ (setFilterQ x s).filterQ ≤ 20) ∧
        ((setReverbMix x s).reverbMix = max 0 (min 1 x) ∧
         0 ≤ (setReverbMix x s).reverbMix ∧ (setReverbMix x s).reverbMix ≤ 1) ∧
        ((setDelayTime x s).delayTime = max 0 (min (1/2) x) ∧
         0 ≤ (setDelayTime x s).delayTime ∧
         (setDelayTime x s).delayTime ≤ 1/2)) := by
  constructor
  · intro s x h
    refine ⟨?_, ?_, ?_, ?_, ?_, ?_, ?_⟩ <;>
      simp [start, stop, setFrequency, setFilterFrequency, setFilterQ,
        setReverbMix, setDelayTime, h]
  · intro s x h
    refine ⟨⟨setFrequency_currentFrequency x s h, ?_, ?_⟩,
      ⟨setFilterFrequency_filterFrequency x s h, ?_, ?_⟩,
      ⟨setFilterQ_filterQ x s h, ?_, ?_⟩,
      ⟨setReverbMix_reverbMix x s h, ?_, ?_⟩,
      ⟨setDelayTime_delayTime x s h, ?_, ?_⟩⟩ <;>
      simp only [setFrequency_currentFrequency x s h,
        setFilterFrequency_filterFrequency x s h, setFilterQ_filterQ x s h,
        setReverbMix_reverbMix x s h, setDelayTime_delayTime x s h] <;>
      first
        | exact clamp_lower _ _ _
        | exact clamp_upper _ _ _ (by norm_num)

/-- Witness for C7: an over-range frequency is a no-op before init and is
clamped to 2000 after init. -/
theorem c7_uninitialized_noop_and_clamp_witness :
    setFrequency 9999 (initialAudio ℚ) = initialAudio ℚ ∧
    (setFrequency 9999 (init (initialAudio ℚ))).currentFrequency = 2000 := by
  have h1 := (c7_uninitialized_noop_and_clamp (α := ℚ)).1 (initialAudio ℚ) 9999 rfl
  have h2 := (c7_uninitialized_noop_and_clamp (α := ℚ)).2 (init (initialAudio ℚ)) 9999 rfl
  refine ⟨h1.2.2.1, ?_⟩
  rw [h2.1.1]
  norm_num

/-- C8: getAudioLevel returns exactly 0 whenever the engine is not
initialized; after initialization it returns the arithmetic mean of the
analyser's byte-frequency bin magnitudes divided by 255, which lies in
[0,1] for every possible spectrum buffer. -/
theorem c8_audio_level {α : Type} [LinearOrderedField α]
    (s : AudioState α) (data : List (Fin 256)) :
    (s.initialized = false → getAudioLevel s data = 0) ∧
    (s.initialized = true →
        getAudioLevel s data
          = (((data.map Fin.val).sum : α) / (data.length : α)) / 255 ∧
        0 ≤ getAudioLevel s data ∧ getAudioLevel s data ≤ 1) := by
  constructor
  · intro h; simp [getAudioLevel, h]
  · intro h
    have hval : getAudioLevel s data
        = (((data.map Fin.val).sum : α) / (data.length : α)) / 255 := by
      simp [getAudioLevel, h]
    refine ⟨hval, ?_, ?_⟩
    · rw [hval]
      exact div_nonneg (div_nonneg (Nat.cast_nonneg _) (Nat.cast_nonneg _))
        (by norm_num)
    · rw [hval]
      rcases eq_or_ne data [] with hnil | hne
      · subst hnil; norm_num
      · have hlen : 0 < (data.length : α) := by
          exact_mod_cast List.length_pos.mpr hne
        have hsum : ((data.map Fin.val).sum : ℕ) ≤ 255 * data.length := by
          have := List.sum_le_card_nsmul (data.map Fin.val) 255
            (fun x hx => by
              obtain ⟨b, _, rfl⟩ := List.mem_map.mp hx
              exact Nat.le_of_lt_succ b.isLt)
          simpa [smul_eq_mul, Nat.mul_comm] using this
        rw [div_le_one (by norm_num), div_le_iff₀ hlen]
        calc ((data.map Fin.val).sum : α) ≤ (255 * data.length : ℕ) := by
              exact_mod_cast hsum
          _ = 255 * (data.length : α) := by push_cast; ring

/-- Witness for C8 on a concrete spectrum buffer. -/
theorem c8_audio_level_witness :
    getAudioLevel (initialAudio ℚ) [(255 : Fin 256), 0] = 0 ∧
    getAudioLevel (init (initialAudio ℚ)) [(255 : Fin 256), 0] = 1/2 := by
  have h1 := (c8_audio_level (initialAudio ℚ) [(255 : Fin 256), 0]).1 rfl
  have h2 := (c8_audio_level (init (initialAudio ℚ)) [(255 : Fin 256), 0]).2 rfl
  refine ⟨h1, ?_⟩
  rw [h2.1]
  norm_num [show ((255 : Fin 256) : ℕ) = 255 from rfl]

/-- C9: Two click/space activations, each split at the single await
boundary of `onClick` (the body of `init` contains no internal await, so
under run-to-completion scheduling its check-and-build prefix is atomic),
can interleave in any order-preserving way; in every such interleaving
exactly one audio context and one oscillator are ever created — no
interleaving of two activations begins a second initialization. -/
theorem c9_no_double_init :
    ∀ t ∈ merges [ClickPhase.checkInit, ClickPhase.toggle]
        [ClickPhase.checkInit, ClickPhase.toggle],
      (runPhases t (initialAudio ℚ)).contextsCreated = 1 ∧
      (runPhases t (initialAudio ℚ)).liveOscillators = 1 ∧
      (runPhases t (initialAudio ℚ)).initialized = true := by
  simp [merges, runPhases, clickPhase, init, start, stop, initialAudio]

/-- Witness for C9: the fully overlapped schedule (both checks before both
toggles) still creates exactly one context. -/
theorem c9_no_double_init_witness :
    (runPhases [ClickPhase.checkInit, ClickPhase.checkInit,
        ClickPhase.toggle, ClickPhase.toggle] (initialAudio ℚ)).contextsCreated = 1 ∧
    (runPhases [ClickPhase.checkInit, ClickPhase.checkInit,
        ClickPhase.toggle, ClickPhase.toggle] (initialAudio ℚ)).liveOscillators = 1 ∧
    (runPhases [ClickPhase.checkInit, ClickPhase.checkInit,
        ClickPhase.toggle, ClickPhase.toggle] (initialAudio ℚ)).initialized = true :=
  c9_no_double_init
    [ClickPhase.checkInit, ClickPhase.checkInit, ClickPhase.toggle, ClickPhase.toggle]
    (by simp [merges])

theorem filter_swap_mem (l : List (NodeRef × NodeRef))
    (hf : l.filter (fun e => e.1 = NodeRef.osc) = [(NodeRef.osc, NodeRef.gain)])
    (e : NodeRef × NodeRef) :
    (e ∈ (l.filter fun e => ¬e.1 = NodeRef.osc) ++ [(NodeRef.osc, NodeRef.gain)])
      ↔ e ∈ l := by
  constructor
  · intro he
    rcases List.mem_append.mp he with h1 | h1
    · exact (List.mem_filter.mp h1).1
    · have : e ∈ l.filter (fun e => e.1 = NodeRef.osc) := by
        rw [hf]; exact h1
      exact (List.mem_filter.mp this).1
  · intro he
    by_cases h1 : e.1 = NodeRef.osc
    · refine List.mem_append.mpr (Or.inr ?_)
      have : e ∈ l.filter (fun e => e.1 = NodeRef.osc) :=
        List.mem_filter.mpr ⟨he, by simp [h1]⟩
      rw [hf] at this
      exact this
    · exact List.mem_append.mpr (Or.inl (List.mem_filter.mpr ⟨he, by simp [h1]⟩))

/-- C5: setWaveform always records the kind as the stored waveform
preference; when initialized it swaps only the oscillator: the replacement
is created at the stored current frequency (so the frequency before the
swap equals the frequency after), it is reconnected into the existing gain
node (the connection set is unchanged when the old oscillator's only
outgoing edge was into the gain node), and every other node value,
stored parameter and counter of the graph is left unchanged. -/
theorem c5_waveform_swap {α : Type} (k : Waveform) (s : AudioState α) :
    (setWaveform k s).waveform = k ∧
    (s.initialized = false → setWaveform k s = { s with waveform := k }) ∧
    (s.initialized = true →
        (setWaveform k s).currentFrequency = s.currentFrequency ∧
        (setWaveform k s).oscFreqValue = s.currentFrequency ∧
        (setWaveform k s).oscType = k ∧
        (setWaveform k s).oscStarted = true ∧
        (s.connections.filter (fun e => e.1 = NodeRef.osc)
            = [(NodeRef.osc, NodeRef.gain)] →
          ∀ e, e ∈ (setWaveform k s).connections ↔ e ∈ s.connections) ∧
        (setWaveform k s).initialized = true ∧
        (setWaveform k s).isPlaying = s.isPlaying ∧
        (setWaveform k s).baseFrequency = s.baseFrequency ∧
        (setWaveform k s).filterFrequency = s.filterFrequency ∧
        (setWaveform k s).filterQ = s.filterQ ∧
        (setWaveform k s).reverbMix = s.reverbMix ∧
        (setWaveform k s).delayTime = s.delayTime ∧
        (setWaveform k s).gainValue = s.gainValue ∧
        (setWaveform k s).filterFreqNode = s.filterFreqNode ∧
        (setWaveform k s).filterQNode = s.filterQNode ∧
        (setWaveform k s).delayTimeNode = s.delayTimeNode ∧
        (setWaveform k s).delayFeedbackGain = s.delayFeedbackGain ∧
        (setWaveform k s).delayMixGain = s.delayMixGain ∧
        (setWaveform k s).reverbMixGainNode = s.reverbMixGainNode ∧
        (setWaveform k s).dryGainNode = s.dryGainNode ∧
        (setWaveform k s).masterGainValue = s.masterGainValue ∧
        (setWaveform k s).contextsCreated = s.contextsCreated ∧
        (setWaveform k s).liveOscillators = s.liveOscillators ∧
        (setWaveform k s).nodesCreated = s.nodesCreated) := by
  refine ⟨?_, ?_, ?_⟩
  · unfold setWaveform; split_ifs <;> rfl
  · intro h; simp [setWaveform, h]
  · intro h
    have hsw : setWaveform k s =
        { s with
          waveform := k
          oscType := k
          oscFreqValue := s.currentFrequency
          oscStarted := true
          connections :=
            (s.connections.filter fun e => ¬e.1 = NodeRef.osc) ++
              [(NodeRef.osc, NodeRef.gain)] } := by
      simp [setWaveform, h]
    rw [hsw]
    refine ⟨rfl, rfl, rfl, rfl, ?_, h, rfl, rfl, rfl, rfl, rfl, rfl, rfl,
      rfl, rfl, rfl, rfl, rfl, rfl, rfl, rfl, rfl, rfl, rfl⟩
    intro hf e
    exact filter_swap_mem s.connections hf e

/-- Witness for C5 on the freshly initialized graph with a square swap. -/
theorem c5_waveform_swap_witness :
    (setWaveform Waveform.square (init (initialAudio ℚ))).waveform
        = Waveform.square ∧
    (setWaveform Waveform.square (init (initialAudio ℚ))).currentFrequency
        = (init (initialAudio ℚ)).currentFrequency ∧
    ((NodeRef.osc, NodeRef.gain)
        ∈ (setWaveform Waveform.square (init (initialAudio ℚ))).connections ↔
      (NodeRef.osc, NodeRef.gain) ∈ (init (initialAudio ℚ)).connections) := by
  have h := c5_waveform_swap Waveform.square (init (initialAudio ℚ))
  have h2 := h.2.2 rfl
  exact ⟨h.1, h2.1,
    h2.2.2.2.2.1 (by decide) (NodeRef.osc, NodeRef.gain)⟩

theorem freq_map_bounds (v : ℝ) (h0 : 0 ≤ v) (h1 : v ≤ 1) :
    110 ≤ 110 * (1760 / 110 : ℝ) ^ v ∧ 110 * (1760 / 110 : ℝ) ^ v ≤ 1760 := by
  have hb : (1760 / 110 : ℝ) = 16 := by norm_num
  have h16 : (1:ℝ) < 16 := by norm_num
  rw [hb]
  constructor
  · have h := (Real.rpow_le_rpow_left_iff h16).mpr h0
    rw [Real.rpow_zero] at h
    nlinarith
  · have h := (Real.rpow_le_rpow_left_iff h16).mpr h1
    rw [Real.rpow_one] at h
    nlinarith

/-- C2: setFrequencyNormalized maps value in [0,1] to
freq = 110 * (1760/110)^value: value 0 stores exactly 110 Hz, value 1
stores exactly 1760 Hz, the stored frequency is strictly increasing in
value, and the [50,2000] clamp inside setFrequency never alters any value
of this mapping. -/
theorem c2_frequency_normalized (v : ℝ) (s : AudioState ℝ)
    (h0 : 0 ≤ v) (h1 : v ≤ 1) (hinit : s.initialized = true) :
    (setFrequencyNormalized realMath v s).currentFrequency
        = 110 * (1760 / 110 : ℝ) ^ v ∧
    (setFrequencyNormalized realMath 0 s).currentFrequency = 110 ∧
    (setFrequencyNormalized realMath 1 s).currentFrequency = 1760 ∧
    (∀ w : ℝ, w ≤ 1 → v < w →
        (setFrequencyNormalized realMath v s).currentFrequency
          < (setFrequencyNormalized realMath w s).currentFrequency) ∧
    max 50 (min 2000 (110 * (1760 / 110 : ℝ) ^ v))
        = 110 * (1760 / 110 : ℝ) ^ v := by
  have hcf : ∀ w : ℝ, 0 ≤ w → w ≤ 1 →
      (setFrequencyNormalized realMath w s).currentFrequency
        = 110 * (1760 / 110 : ℝ) ^ w := by
    intro w hw0 hw1
    have hbnd := freq_map_bounds w hw0 hw1
    show (setFrequency (110 * realMath.pow (1760 / 110) w) s).currentFrequency = _
    rw [setFrequency_currentFrequency _ _ hinit,
      show realMath.pow (1760 / 110) w = (1760 / 110 : ℝ) ^ w from rfl]
    exact clamp_eq_self _ _ _ (by linarith [hbnd.1]) (by linarith [hbnd.2])
  have hb : (1760 / 110 : ℝ) = 16 := by norm_num
  have h16 : (1:ℝ) < 16 := by norm_num
  refine ⟨hcf v h0 h1, ?_, ?_, ?_, ?_⟩
  · rw [hcf 0 le_rfl (by norm_num), Real.rpow_zero]
    norm_num
  · rw [hcf 1 (by norm_num) le_rfl, Real.rpow_one]
    norm_num
  · intro w hw1 hvw
    have hw0 : 0 ≤ w := le_trans h0 (le_of_lt hvw)
    rw [hcf v h0 h1, hcf w hw0 hw1, hb]
    have h := (Real.rpow_lt_rpow_left_iff h16).mpr hvw
    nlinarith [Real.rpow_pos_of_pos (by norm_num : (0:ℝ) < 16) v]
  · have hbnd := freq_map_bounds v h0 h1
    exact clamp_eq_self _ _ _ (by linarith [hbnd.1]) (by linarith [hbnd.2])

/-- Witness for C2 at value 1/2 on the freshly initialized real engine. -/
theorem c2_frequency_normalized_witness :
    (setFrequencyNormalized realMath (1/2) (init (initialAudio ℝ))).currentFrequency
      = 110 * (1760 / 110 : ℝ) ^ (1/2 : ℝ) :=
  (c2_frequency_normalized (1/2) (init (initialAudio ℝ))
    (by norm_num) (by norm_num) rfl).1

end GeoMusic
